import Mathlib

/-!
Verification development for the trapezoid-arena shooter game
(`src/unnamed/part_000`, component `ArcheroGame`).

The simulation core is embedded shallowly over exact rationals:

* TypeScript `number` arithmetic is embedded as `ℚ`; decimal literals such
  as `1.1`, `0.08`, `3.12` are taken at their decimal value (`11/10`,
  `2/25`, `78/25`).
* Every comparison of the form `Math.sqrt (dx*dx + dy*dy) < c` (resp. `> c`)
  in the source is embedded as `dx^2 + dy^2 < c^2` (resp. `>`); this is
  equivalent for the nonnegative thresholds appearing in the source.
* `Math.random()` draws are modelled by an oracle stream `r : ℕ → ℚ`
  (consumed in source order), and the per-hit drop roll
  `Math.random() < dropChance` by a boolean oracle.
* The angle `Math.atan2(aimY, aimX)` and `Math.cos`/`Math.sin` of the fire
  routine are embedded over `ℝ` with the base angle as an abstract
  parameter; everything else is computable.
-/

namespace Archero

/-! ## Arena constants (source lines 980-1003) -/

def canvasWidth : ℚ := 1280
def canvasHeight : ℚ := 720
def TOP_Y : ℚ := canvasHeight * (6/100)
def BOTTOM_Y : ℚ := canvasHeight * (98/100)
def TOP_HALF_W : ℚ := canvasWidth * (16/100)
def BOT_HALF_W : ℚ := canvasWidth * (28/100)
def cxArena : ℚ := canvasWidth / 2
def MAX_ENEMIES : ℕ := 35
def fireRate : ℚ := 500
def enemySpawnRate : ℚ := 1200
def projectileLifetime : ℚ := 2500

/-- Half-width of the trapezoid arena at row `y` (source lines 991-992). -/
def halfWAt (y : ℚ) : ℚ :=
  TOP_HALF_W + (BOT_HALF_W - TOP_HALF_W) * (y / canvasHeight)

/-- Result of the pseudo-3D projection. -/
structure Projection where
  sx : ℚ
  sy : ℚ
  scale : ℚ
deriving DecidableEq

/-- Source `project` (lines 1027-1034). -/
def project (x y : ℚ) : Projection :=
  let t := max 0 (min 1 (y / canvasHeight))
  let halfW := halfWAt y
  { sx := cxArena + (x - cxArena) * (halfW / BOT_HALF_W)
    sy := TOP_Y + (BOTTOM_Y - TOP_Y) * t
    scale := halfW / BOT_HALF_W }

/-! ## Entities -/

structure Obstacle where
  x : ℚ
  y : ℚ
  width : ℚ
  height : ℚ
deriving DecidableEq

structure Player where
  x : ℚ
  y : ℚ
  vx : ℚ
  vy : ℚ
  radius : ℚ
  aimX : ℚ
  aimY : ℚ
  lastFireTime : ℚ
deriving DecidableEq

structure Projectile where
  x : ℚ
  y : ℚ
  vx : ℚ
  vy : ℚ
  radius : ℚ
  createdAt : ℚ
  piercesLeft : ℤ
  canRicochet : Bool
deriving DecidableEq

structure Enemy where
  x : ℚ
  y : ℚ
  vx : ℚ
  vy : ℚ
  radius : ℚ
  spawnInvulUntil : ℚ
deriving DecidableEq

structure Drop where
  x : ℚ
  y : ℚ
  radius : ℚ
deriving DecidableEq

instance : Inhabited Projectile :=
  ⟨{ x := 0, y := 0, vx := 0, vy := 0, radius := 0, createdAt := 0,
     piercesLeft := 0, canRicochet := false }⟩

/-! ## Collision primitives (source lines 1076-1121) -/

/-- Source `circleRectCollides` (lines 1076-1092): closest-point test,
with the squared-distance comparison exactly as in the source. -/
def circleRectCollides (cx cy cr : ℚ) (ob : Obstacle) : Bool :=
  let left := ob.x - ob.width / 2
  let right := ob.x + ob.width / 2
  let top := ob.y - ob.height / 2
  let bottom := ob.y + ob.height / 2
  let closestX := max left (min cx right)
  let closestY := max top (min cy bottom)
  let dx := cx - closestX
  let dy := cy - closestY
  decide (dx * dx + dy * dy < cr * cr)

inductive Axis where
  | x : Axis
  | y : Axis
deriving DecidableEq

/-- Source `circleRectCollisionAxis` (lines 1094-1111). -/
def circleRectCollisionAxis (cx cy : ℚ) (ob : Obstacle) : Axis :=
  let left := ob.x - ob.width / 2
  let right := ob.x + ob.width / 2
  let top := ob.y - ob.height / 2
  let bottom := ob.y + ob.height / 2
  let closestX := max left (min cx right)
  let closestY := max top (min cy bottom)
  let dx := |cx - closestX|
  let dy := |cy - closestY|
  if dy < dx then Axis.x else Axis.y

/-- Source `checkObstacleCollision` (lines 1114-1121). -/
def checkObstacleCollision (obstacles : List Obstacle) (x y radius : ℚ) : Bool :=
  obstacles.any (fun ob => circleRectCollides x y radius ob)

/-! ## Player advance stage (source lines 1420-1446) -/

/-- The tentative position after per-axis obstacle rejection, before the
trapezoid clamp (source lines 1421-1432). -/
def playerTentative (obstacles : List Obstacle) (p : Player) : ℚ × ℚ :=
  let nx0 := p.x + p.vx
  let ny0 := p.y + p.vy
  let nx := if checkObstacleCollision obstacles nx0 p.y p.radius then p.x else nx0
  let ny := if checkObstacleCollision obstacles p.x ny0 p.radius then p.y else ny0
  (nx, ny)

/-- The player-advance stage of a tick (source lines 1420-1446): per-axis
obstacle rejection followed by the trapezoid boundary clamp. -/
def playerStep (obstacles : List Obstacle) (p : Player) : Player :=
  let nx := (playerTentative obstacles p).1
  let ny := (playerTentative obstacles p).2
  let hw := halfWAt ny - p.radius
  let minX := cxArena - hw
  let maxX := cxArena + hw
  { p with
    x := max minX (min maxX nx)
    y := max p.radius (min (canvasHeight - p.radius) ny) }

/-! ## Projectile advance stage (source lines 1449-1488) -/

/-- Arena-boundary phase of the per-projectile update (source lines
1454-1466). Returns `none` when the projectile is discarded, otherwise the
tuple `(nx, ny, vx, vy)` handed to the obstacle phase. -/
def projBoundary (p : Projectile) : Option (ℚ × ℚ × ℚ × ℚ) :=
  let nx0 := p.x + p.vx
  let ny0 := p.y + p.vy
  let hwN := halfWAt ny0 - p.radius
  let xOut := decide (nx0 < cxArena - hwN ∨ cxArena + hwN < nx0)
  if xOut && !p.canRicochet then none
  else
    let vx := if xOut then -p.vx else p.vx
    let nx := if xOut then p.x + vx else nx0
    let yOut := decide (ny0 < p.radius ∨ canvasHeight - p.radius < ny0)
    if yOut && !p.canRicochet then none
    else
      let vy := if yOut then -p.vy else p.vy
      let ny := if yOut then p.y + vy else ny0
      some (nx, ny, vx, vy)

/-- Obstacle phase of the per-projectile update (source lines 1468-1484):
first colliding obstacle wins; a ricochet-capable projectile inverts the
penetration-axis velocity component and is re-advanced from its original
position, otherwise the projectile is destroyed. -/
def projObstacles (obstacles : List Obstacle) (p : Projectile)
    (nx ny vx vy : ℚ) : Option (ℚ × ℚ × ℚ × ℚ) :=
  match obstacles.find? (fun ob => circleRectCollides nx ny p.radius ob) with
  | none => some (nx, ny, vx, vy)
  | some ob =>
    if p.canRicochet then
      match circleRectCollisionAxis nx ny ob with
      | Axis.x => some (p.x + -vx, p.y + vy, -vx, vy)
      | Axis.y => some (p.x + vx, p.y + -vy, vx, -vy)
    else none

/-- One projectile's update in the `setProjectiles` pass (source lines
1451-1486): lifetime check, boundary phase, obstacle phase. -/
def projectileStep (obstacles : List Obstacle) (ts : ℚ) (p : Projectile) :
    Option Projectile :=
  if projectileLifetime ≤ ts - p.createdAt then none
  else
    match projBoundary p with
    | none => none
    | some (nx, ny, vx, vy) =>
      match projObstacles obstacles p nx ny vx vy with
      | none => none
      | some (nx2, ny2, vx2, vy2) =>
        some { p with x := nx2, y := ny2, vx := vx2, vy := vy2 }

/-! ## Enemy spawner (source lines 1258-1313)

Randomness is an oracle `r : ℕ → ℚ`; attempt `k` consumes `r (2*k)` for the
row and `r (2*k+1)` for the column, and the fallback consumes `r 40`,
`r 41`, matching the source's sequential `Math.random()` calls. -/

/-- One rejection-sampling attempt of `spawnEnemy` (source lines 1270-1295):
the sampled point, valid when farther than 160 from the player (squared
comparison) and clear of every obstacle at radius 12. -/
def enemyAttempt (r : ℕ → ℚ) (k : ℕ) : ℚ × ℚ :=
  let y := 40 + r (2 * k) * (canvasHeight - 80)
  let hw := halfWAt y - 40
  let x := cxArena - hw + r (2 * k + 1) * (hw * 2)
  (x, y)

def enemyAttemptValid (obstacles : List Obstacle) (player : Player)
    (pos : ℚ × ℚ) : Bool :=
  decide (160 * 160 < (player.x - pos.1) ^ 2 + (player.y - pos.2) ^ 2) &&
    !checkObstacleCollision obstacles pos.1 pos.2 12

/-- The rejection-sampling loop of `spawnEnemy`, attempts `k`, `k+1`, ...
with the given fuel (20 in the source). -/
def enemyFind (r : ℕ → ℚ) (obstacles : List Obstacle) (player : Player) :
    ℕ → ℕ → Option (ℚ × ℚ)
  | _, 0 => none
  | k, fuel + 1 =>
    let pos := enemyAttempt r k
    if enemyAttemptValid obstacles player pos then some pos
    else enemyFind r obstacles player (k + 1) fuel

/-- The position `spawnEnemy` settles on: the first valid sample within 20
attempts, else the unchecked fallback (source lines 1297-1301). -/
def spawnEnemyPos (r : ℕ → ℚ) (obstacles : List Obstacle) (player : Player) :
    ℚ × ℚ :=
  match enemyFind r obstacles player 0 20 with
  | some pos => pos
  | none =>
    (canvasWidth / 2 + (r 40 - 1/2) * (canvasWidth - 200),
     canvasHeight / 2 + (r 41 - 1/2) * (canvasHeight - 200))

/-- Source `spawnEnemy` (lines 1258-1313). Returns the new enemy list and
the new `lastEnemySpawn`. -/
def spawnEnemy (r : ℕ → ℚ) (time : ℚ) (obstacles : List Obstacle)
    (player : Player) (enemies : List Enemy) : List Enemy × ℚ :=
  if MAX_ENEMIES ≤ enemies.length then (enemies, time)
  else
    let pos := spawnEnemyPos r obstacles player
    (enemies ++ [{ x := pos.1, y := pos.2, vx := 0, vy := 0, radius := 12,
                   spawnInvulUntil := time + 300 }], time)

/-! ## Milestone obstacle spawner (source lines 1344-1396) -/

/-- One placement attempt of `spawnObstacles` (source lines 1354-1382),
consuming `r k` (row) and `r (k+1)` (column). -/
def obstacleAttempt (r : ℕ → ℚ) (k : ℕ) (player : Player) : ℚ × ℚ :=
  let y := 50 + r k * (canvasHeight - 100)
  let diam := player.radius * 2
  let margin := diam / 2 + 8
  let hw := halfWAt y - margin
  let x := cxArena - hw + r (k + 1) * (hw * 2)
  (x, y)

def obstacleAttemptValid (player : Player) (obs : List Obstacle)
    (pos : ℚ × ℚ) : Bool :=
  let diam := player.radius * 2
  let distOk := decide (120 * 120 < (player.x - pos.1) ^ 2 + (player.y - pos.2) ^ 2)
  let overlaps := obs.any fun ob =>
    decide (|pos.1 - ob.x| < (diam + ob.width) / 2 ∧
            |pos.2 - ob.y| < (diam * 2 + ob.height) / 2)
  distOk && !overlaps

/-- The per-obstacle rejection loop (fuel 20 in the source); returns the
accepted position, if any, and the next unconsumed oracle index. -/
def obstacleFind (r : ℕ → ℚ) (player : Player) (obs : List Obstacle) :
    ℕ → ℕ → Option (ℚ × ℚ) × ℕ
  | k, 0 => (none, k)
  | k, fuel + 1 =>
    let pos := obstacleAttempt r k player
    if obstacleAttemptValid player obs pos then (some pos, k + 2)
    else obstacleFind r player obs (k + 2) fuel

/-- The `for` loop of `spawnObstacles`: an obstacle whose 20 attempts all
fail is simply skipped (source line 1384: obstacles are pushed only under
`validPosition`). -/
def spawnObstaclesGo (r : ℕ → ℚ) (player : Player) (obstacles : List Obstacle) :
    List Obstacle → ℕ → ℕ → List Obstacle
  | newObs, _, 0 => newObs
  | newObs, k, n + 1 =>
    match obstacleFind r player (obstacles ++ newObs) k 20 with
    | (some pos, k2) =>
      spawnObstaclesGo r player obstacles
        (newObs ++ [{ x := pos.1, y := pos.2, width := player.radius * 2,
                      height := player.radius * 2 * 2 }]) k2 n
    | (none, k2) => spawnObstaclesGo r player obstacles newObs k2 n

/-- Source `spawnObstacles` (lines 1344-1396): the list of obstacles added
at a milestone crossing; `1 + Math.floor(Math.random()*2)` of them are
attempted. -/
def spawnObstacles (r : ℕ → ℚ) (player : Player) (obstacles : List Obstacle) :
    List Obstacle :=
  let toAdd := (1 + (⌊r 0 * 2⌋ : ℤ)).toNat
  spawnObstaclesGo r player obstacles [] 1 toAdd

/-! ## Combat pass (source lines 1534-1613)

The source iterates the pre-step `enemies` snapshot; `newEnemies` and
`newProjectiles` start as copies of the snapshots and entries are removed
from them, while `projectile.piercesLeft -= 1` mutates the object shared
between `projectiles` and `newProjectiles`.  We model the shared mutable
projectile objects as the list `projs` (positions never change during the
pass, only pierce counts), and `newEnemies`/`newProjectiles` as lists of
indexes into the snapshots.  Removal of the hit projectile is
`newProjectiles.filter((_, index) => index !== i)`, i.e. removal of the
element at position `i` of the *current* `newProjectiles` — `List.eraseIdx`. -/

structure CombatState where
  gameOver : Bool
  kills : ℕ
  projs : List Projectile
  newEnemies : List ℕ
  newProjectiles : List ℕ
  newDrops : List Drop
  dropsChanged : Bool
  enemiesChanged : Bool
  projectilesChanged : Bool
deriving DecidableEq

/-- Hit test of the inner projectile loop (source line 1565),
squared-distance form of `pDistance < projectile.radius + enemy.radius`. -/
def enemyHit (e : Enemy) (p : Projectile) : Bool :=
  decide ((p.x - e.x) ^ 2 + (p.y - e.y) ^ 2 < (p.radius + e.radius) ^ 2)

/-- The inner `for (let i = 0; i < projectiles.length; i++)` scan (source
lines 1559-1588): index of the first projectile overlapping the enemy. -/
def findHitIdx (e : Enemy) : List Projectile → ℕ → Option ℕ
  | [], _ => none
  | p :: ps, i => if enemyHit e p then some i else findHitIdx e ps (i + 1)

/-- The body of the combat loop for one snapshot enemy `e` at snapshot
index `j` (source lines 1546-1589).  `roll` is the drop-chance oracle for
this hit.  The `gameOver` guard models the `break` at line 1556. -/
def combatEnemy (ts : ℚ) (player : Player) (roll : Bool) (s : CombatState)
    (j : ℕ) (e : Enemy) : CombatState :=
  if s.gameOver then s
  else if ts < e.spawnInvulUntil then s
  else if (player.x - e.x) ^ 2 + (player.y - e.y) ^ 2 <
      (player.radius + e.radius) ^ 2 then
    { s with gameOver := true }
  else
    match findHitIdx e s.projs 0 with
    | none => s
    | some i =>
      let hitP := s.projs.getD i default
      let s1 := { s with
        kills := s.kills + 1
        newEnemies := s.newEnemies.filter (fun j2 => j2 ≠ j)
        enemiesChanged := true }
      let s2 :=
        if 0 < hitP.piercesLeft then
          { s1 with projs :=
              s1.projs.set i { hitP with piercesLeft := hitP.piercesLeft - 1 } }
        else
          { s1 with newProjectiles := s1.newProjectiles.eraseIdx i
                    projectilesChanged := true }
      if roll then
        { s2 with newDrops := s2.newDrops ++ [{ x := e.x, y := e.y, radius := 12 }]
                  dropsChanged := true }
      else s2

/-- The full projectile-enemy combat pass of one tick (source lines
1534-1589), folding `combatEnemy` over the pre-step enemy snapshot. -/
def combatPass (ts : ℚ) (player : Player) (roll : ℕ → Bool) (kills0 : ℕ)
    (enemies : List Enemy) (projectiles : List Projectile)
    (drops : List Drop) : CombatState :=
  enemies.enum.foldl
    (fun s je => combatEnemy ts player (roll je.1) s je.1 je.2)
    { gameOver := false
      kills := kills0
      projs := projectiles
      newEnemies := List.range enemies.length
      newProjectiles := List.range projectiles.length
      newDrops := drops
      dropsChanged := false
      enemiesChanged := false
      projectilesChanged := false }

/-! ## Stats and perk application (source lines 940-947, 1240-1256) -/

structure Stats where
  playerSpeed : ℚ
  projectileSpeed : ℚ
  arrowCount : ℕ
  pierce : Bool
  ricochet : Bool
deriving DecidableEq

/-- The `setStats` updater of `applyPerk` (source lines 1241-1253). -/
def applyPerkStats (id : String) (s : Stats) : Stats :=
  if id = "arrow_speed" then { s with projectileSpeed := s.projectileSpeed * (11/10) }
  else if id = "player_speed" then { s with playerSpeed := s.playerSpeed * (5/4) }
  else if id = "arrow_count" then { s with arrowCount := s.arrowCount + 1 }
  else if id = "pierce" then { s with pierce := true }
  else if id = "ricochet" then { s with ricochet := true }
  else s

structure UiState where
  stats : Stats
  perkOpen : Bool
  running : Bool
  gameOver : Bool
deriving DecidableEq

/-- Source `applyPerk` (lines 1240-1256): update stats, close the prompt,
resume unless the run has ended. -/
def applyPerk (id : String) (u : UiState) : UiState :=
  { u with
    stats := applyPerkStats id u.stats
    perkOpen := false
    running := if u.gameOver then u.running else true }

/-! ## Milestone block (source lines 1615-1639) -/

/-- The 5-entry perk pool (source lines 1617-1623), by id. -/
def perkPool : List String :=
  ["arrow_speed", "player_speed", "arrow_count", "pierce", "ricochet"]

/-- The id drawn for oracle value `d` (`pool[Math.floor(Math.random()*5)]`). -/
def perkAt : Fin 5 → String
  | 0 => "arrow_speed"
  | 1 => "player_speed"
  | 2 => "arrow_count"
  | 3 => "pierce"
  | 4 => "ricochet"

/-- The rejection-sampling draw of 3 distinct perk ids (source lines
1624-1628), with the oracle's draw list as fuel: the source's `while` loop
runs until 3 picks are collected. -/
def buildPicks : List (Fin 5) → List String → List String
  | [], acc => acc
  | d :: ds, acc =>
    if 3 ≤ acc.length then acc
    else buildPicks ds (if perkAt d ∈ acc then acc else acc ++ [perkAt d])

structure MilestoneState where
  kills : ℕ
  nextMilestone : ℕ
  perkOpen : Bool
  running : Bool
  perkChoices : List String
  enemySpeed : ℚ
  obstacles : List Obstacle
deriving DecidableEq

/-- The roguelike milestone block (source lines 1616-1639): guarded on
`newKills >= nextMilestone && !perkOpen`; opens the prompt with 3 drawn
perks, pauses, speeds enemies up by 1.1, advances the threshold by 10 and
spawns obstacles.  (The ground-colour change is rendering-only and
omitted.) -/
def milestoneBlock (draws : List (Fin 5)) (orand : ℕ → ℚ) (player : Player)
    (s : MilestoneState) : MilestoneState :=
  if s.nextMilestone ≤ s.kills ∧ s.perkOpen = false then
    { s with
      perkChoices := buildPicks draws []
      perkOpen := true
      running := false
      enemySpeed := s.enemySpeed * (11/10)
      nextMilestone := s.nextMilestone + 10
      obstacles := s.obstacles ++ spawnObstacles orand player s.obstacles }
  else s

/-! ## Fire stage (source lines 1416-1418, 1315-1341)

`fireProjectile` computes each shot's velocity as
`(cos angle * speed, sin angle * speed)` with
`angle = atan2(aimY, aimX) + offset`.  The base angle is an abstract real
parameter here (the value of `atan2`); the offsets and the spread are exact
rationals from the source formulas. -/

/-- The spread `Math.min(0.3, 0.08 * (count - 1))` (source line 1318),
with the subtraction over ℚ as in the source. -/
def fireSpread (count : ℕ) : ℚ :=
  min (3/10) ((2/25) * ((count : ℚ) - 1))

/-- The angular offset of shot `i` in a volley of `count`
(source lines 1321-1322). -/
def shotOffset (count : ℕ) (i : ℕ) : ℚ :=
  if count = 1 then 0
  else -(fireSpread count) / 2 + (fireSpread count / ((count : ℚ) - 1)) * (i : ℚ)

/-- A projectile as created by `fireProjectile`, with real-valued
velocity components. -/
structure Shot where
  x : ℝ
  y : ℝ
  vx : ℝ
  vy : ℝ
  radius : ℝ
  createdAt : ℝ
  piercesLeft : ℤ
  canRicochet : Bool

/-- The volley created by `fireProjectile` (source lines 1315-1335). -/
noncomputable def fireVolley (baseAngle : ℝ) (time : ℚ) (player : Player)
    (stats : Stats) : List Shot :=
  (List.range stats.arrowCount).map fun i =>
    let angle : ℝ := baseAngle + (shotOffset stats.arrowCount i : ℝ)
    { x := (player.x : ℝ)
      y := (player.y : ℝ)
      vx := Real.cos angle * (stats.projectileSpeed : ℝ)
      vy := Real.sin angle * (stats.projectileSpeed : ℝ)
      radius := 4
      createdAt := (time : ℝ)
      piercesLeft := if stats.pierce then 1 else 0
      canRicochet := stats.ricochet }

/-- The fire condition of the tick (source line 1416). -/
def fireCond (time : ℚ) (player : Player) : Prop :=
  player.vx = 0 ∧ player.vy = 0 ∧ fireRate ≤ time - player.lastFireTime

instance (time : ℚ) (player : Player) : Decidable (fireCond time player) := by
  unfold fireCond
  infer_instance

/-- The fire stage of the tick (source lines 1416-1418 together with
1335-1340): when the condition holds, exactly one volley is appended and
`lastFireTime` becomes the tick's timestamp. -/
noncomputable def fireStage (baseAngle : ℝ) (time : ℚ) (player : Player)
    (stats : Stats) (projs : List Shot) : List Shot × ℚ :=
  if fireCond time player then (projs ++ fireVolley baseAngle time player stats, time)
  else (projs, player.lastFireTime)

/-! ## Concrete states used by witnesses and counterexamples -/

/-- The initial player of `resetGame` (source lines 1201-1210). -/
def initialPlayer : Player :=
  { x := 640, y := 360, vx := 0, vy := 0, radius := 14,
    aimX := 1, aimY := 0, lastFireTime := 0 }

/-- The initial stats (source lines 941-947). -/
def initialStats : Stats :=
  { playerSpeed := 78/25, projectileSpeed := 6, arrowCount := 1,
    pierce := false, ricochet := false }

/-- A player at the bottom edge moving down-right with both movement keys
held (velocity `(3.12, 3.12)`). -/
def c1playerA : Player :=
  { x := 981, y := 706, vx := 78/25, vy := 78/25, radius := 14,
    aimX := 1, aimY := 0, lastFireTime := 0 }

/-- A player just left-below an obstacle corner, moving diagonally into it. -/
def c1playerB : Player :=
  { x := 16847/25, y := 8997/25, vx := 78/25, vy := 78/25, radius := 14,
    aimX := 1, aimY := 0, lastFireTime := 0 }

def c1obstacle : Obstacle := { x := 700, y := 400, width := 28, height := 56 }

def c2player : Player :=
  { x := 100, y := 100, vx := 0, vy := 0, radius := 14,
    aimX := 1, aimY := 0, lastFireTime := 0 }

def c2enemies : List Enemy :=
  [{ x := 300, y := 300, vx := 0, vy := 0, radius := 12, spawnInvulUntil := 0 },
   { x := 500, y := 500, vx := 0, vy := 0, radius := 12, spawnInvulUntil := 0 }]

def c2projectiles : List Projectile :=
  [{ x := 300, y := 300, vx := 0, vy := 0, radius := 4, createdAt := 0,
     piercesLeft := 0, canRicochet := false },
   { x := 500, y := 500, vx := 0, vy := 0, radius := 4, createdAt := 0,
     piercesLeft := 0, canRicochet := false }]

def c3enemy : Enemy :=
  { x := 200, y := 200, vx := 0, vy := 0, radius := 12, spawnInvulUntil := 300 }

def c3combatState : CombatState :=
  { gameOver := false, kills := 0, projs := c2projectiles,
    newEnemies := [0], newProjectiles := [0, 1], newDrops := [],
    dropsChanged := false, enemiesChanged := false, projectilesChanged := false }

/-- The constant oracle returning `1/2`: every sampled point lands on the
player at the arena centre, so every placement attempt is rejected. -/
def halfRand : ℕ → ℚ := fun _ => 1/2

/-- A ricochet-capable projectile about to cross the left slanted bound. -/
def c8proj : Projectile :=
  { x := 300, y := 360, vx := -60, vy := 0, radius := 4, createdAt := 0,
    piercesLeft := 0, canRicochet := true }

def c5stats : Stats :=
  { playerSpeed := 78/25, projectileSpeed := 6, arrowCount := 3,
    pierce := true, ricochet := false }

def c4state : MilestoneState :=
  { kills := 10, nextMilestone := 10, perkOpen := false, running := true,
    perkChoices := [], enemySpeed := 13/10, obstacles := [] }

def c6ui : UiState :=
  { stats := initialStats, perkOpen := true, running := false, gameOver := false }

/-! ## Helper lemmas -/

theorem halfWAt_mono {y1 y2 : ℚ} (h : y1 ≤ y2) : halfWAt y1 ≤ halfWAt y2 := by
  unfold halfWAt TOP_HALF_W BOT_HALF_W canvasWidth canvasHeight
  norm_num
  linarith

theorem BOT_HALF_W_pos : (0 : ℚ) < BOT_HALF_W := by
  norm_num [BOT_HALF_W, canvasWidth]

/-! ## Claim C9 -/

/-- Claim C9: for every x and every pair `y1 ≤ y2` within `[0, canvasHeight]`,
the scale returned by `project` is monotonically non-decreasing in y. -/
theorem project_scale_mono_c9 (x1 x2 y1 y2 : ℚ) (h0 : 0 ≤ y1) (hle : y1 ≤ y2)
    (h2 : y2 ≤ canvasHeight) :
    (project x1 y1).scale ≤ (project x2 y2).scale := by
  have hb := BOT_HALF_W_pos
  have hm := halfWAt_mono hle
  simp only [project]
  exact div_le_div_of_nonneg_right hm hb.le |>.trans_eq rfl

/-- Witness for C9 at `y1 = 0`, `y2 = canvasHeight`. -/
theorem project_scale_mono_c9_witness :
    (project 0 0).scale ≤ (project 0 canvasHeight).scale :=
  project_scale_mono_c9 0 0 0 canvasHeight (by norm_num)
    (by norm_num [canvasHeight]) (le_refl _)

/-! ## Claim C6 -/

/-- Claim C6: `applyPerk` maps each catalog id to exactly its stated effect
and changes no other stat field (`arrow_speed`: projectile speed ×1.1,
`player_speed`: player speed ×1.25, `arrow_count`: +1 arrow, `pierce` and
`ricochet`: set the flag), and every call closes the perk prompt and
resumes the run unless the run has already ended. -/
theorem applyPerk_c6 (u : UiState) :
    (applyPerk "arrow_speed" u).stats =
      { u.stats with projectileSpeed := u.stats.projectileSpeed * (11/10) } ∧
    (applyPerk "player_speed" u).stats =
      { u.stats with playerSpeed := u.stats.playerSpeed * (5/4) } ∧
    (applyPerk "arrow_count" u).stats =
      { u.stats with arrowCount := u.stats.arrowCount + 1 } ∧
    (applyPerk "pierce" u).stats = { u.stats with pierce := true } ∧
    (applyPerk "ricochet" u).stats = { u.stats with ricochet := true } ∧
    (∀ id : String, (applyPerk id u).perkOpen = false ∧
      (u.gameOver = false → (applyPerk id u).running = true)) := by
  refine ⟨rfl, rfl, rfl, rfl, rfl, fun id => ⟨rfl, fun h => ?_⟩⟩
  simp [applyPerk, h]

/-- Witness for C6: applying `pierce` with the run not over resumes it. -/
theorem applyPerk_c6_witness : (applyPerk "pierce" c6ui).running = true :=
  ((applyPerk_c6 c6ui).2.2.2.2.2 "pierce").2 rfl

/-! ## Claim C10 -/

/-- Claim C10: `applyPerk` with an id outside the five catalog ids leaves
every stats field unchanged, still closes the perk prompt, resumes the run
if it is not over, and does not restart an ended run. -/
theorem applyPerk_unknown_c10 (u : UiState) (id : String)
    (h1 : id ≠ "arrow_speed") (h2 : id ≠ "player_speed")
    (h3 : id ≠ "arrow_count") (h4 : id ≠ "pierce") (h5 : id ≠ "ricochet") :
    (applyPerk id u).stats = u.stats ∧
    (applyPerk id u).perkOpen = false ∧
    (u.gameOver = false → (applyPerk id u).running = true) ∧
    (u.gameOver = true → (applyPerk id u).running = u.running) := by
  refine ⟨?_, rfl, fun h => ?_, fun h => ?_⟩
  · simp [applyPerk, applyPerkStats, h1, h2, h3, h4, h5]
  · simp [applyPerk, h]
  · simp [applyPerk, h]

/-- Witness for C10 with the unknown id `"haste"`. -/
theorem applyPerk_unknown_c10_witness :
    (applyPerk "haste" c6ui).stats = c6ui.stats :=
  (applyPerk_unknown_c10 c6ui "haste" (by decide) (by decide) (by decide)
    (by decide) (by decide)).1

/-! ## Claim C3 -/

/-- Claim C3: every enemy spawned at time `T` gets
`spawnInvulUntil = T + 300`, and during any tick whose timestamp is
strictly before an enemy's `spawnInvulUntil` the combat pass skips that
enemy entirely: it can neither end the run by contact nor be killed (so it
awards no kill and no drop and removes no projectile). -/
theorem spawn_invul_c3 :
    (∀ (r : ℕ → ℚ) (time : ℚ) (obstacles : List Obstacle) (player : Player)
        (enemies : List Enemy), enemies.length < MAX_ENEMIES →
      (spawnEnemy r time obstacles player enemies).1 =
        enemies ++ [{ x := (spawnEnemyPos r obstacles player).1,
                      y := (spawnEnemyPos r obstacles player).2,
                      vx := 0, vy := 0, radius := 12,
                      spawnInvulUntil := time + 300 }]) ∧
    (∀ (ts : ℚ) (player : Player) (roll : Bool) (s : CombatState) (j : ℕ)
        (e : Enemy), ts < e.spawnInvulUntil →
      combatEnemy ts player roll s j e = s) := by
  constructor
  · intro r time obstacles player enemies h
    unfold spawnEnemy
    rw [if_neg (by omega)]
  · intro ts player roll s j e h
    unfold combatEnemy
    by_cases hg : s.gameOver = true
    · simp [hg]
    · simp [hg, h]

/-- Witness for C3: a fresh spawn at time 0 carries `spawnInvulUntil = 300`,
and at tick timestamp 5 the combat body leaves the state untouched. -/
theorem spawn_invul_c3_witness :
    (spawnEnemy halfRand 0 [] initialPlayer []).1 =
      [] ++ [{ x := (spawnEnemyPos halfRand [] initialPlayer).1,
               y := (spawnEnemyPos halfRand [] initialPlayer).2,
               vx := 0, vy := 0, radius := 12, spawnInvulUntil := 0 + 300 }] ∧
    combatEnemy 5 c2player true c3combatState 0 c3enemy = c3combatState :=
  ⟨spawn_invul_c3.1 halfRand 0 [] initialPlayer [] (by decide),
   spawn_invul_c3.2 5 c2player true c3combatState 0 c3enemy
     (by norm_num [c3enemy])⟩

/-! ## Claim C4 -/

theorem perkAt_mem_pool (d : Fin 5) : perkAt d ∈ perkPool := by
  fin_cases d <;> simp [perkAt, perkPool]

theorem buildPicks_nodup : ∀ (ds : List (Fin 5)) (acc : List String),
    acc.Nodup → (buildPicks ds acc).Nodup := by
  intro ds
  induction ds with
  | nil => intro acc h; exact h
  | cons d ds ih =>
    intro acc h
    unfold buildPicks
    by_cases h3 : 3 ≤ acc.length
    · rw [if_pos h3]; exact h
    · rw [if_neg h3]
      by_cases hm : perkAt d ∈ acc
      · rw [if_pos hm]; exact ih acc h
      · rw [if_neg hm]
        refine ih _ ?_
        simp [List.nodup_append, h, hm]

theorem buildPicks_subset : ∀ (ds : List (Fin 5)) (acc : List String),
    (∀ c ∈ acc, c ∈ perkPool) → ∀ c ∈ buildPicks ds acc, c ∈ perkPool := by
  intro ds
  induction ds with
  | nil => intro acc h; exact h
  | cons d ds ih =>
    intro acc h
    unfold buildPicks
    by_cases h3 : 3 ≤ acc.length
    · rw [if_pos h3]; exact h
    · rw [if_neg h3]
      by_cases hm : perkAt d ∈ acc
      · rw [if_pos hm]; exact ih acc h
      · rw [if_neg hm]
        refine ih _ ?_
        intro c hc
        rcases List.mem_append.mp hc with hc | hc
        · exact h c hc
        · rw [List.mem_singleton.mp hc]; exact perkAt_mem_pool d

/-- Claim C4: when the kill count reaches the milestone threshold and no
perk prompt is open, the milestone block opens exactly one prompt with
exactly 3 pairwise-distinct perk ids from the 5-entry pool, pauses the run,
and advances the threshold by exactly +10 (hence strictly increases it);
when a prompt is already open the block does nothing, so no second prompt
can open.  The hypothesis on `draws` says the random stream feeds the
rejection-sampling loop until its 3 picks are collected. -/
theorem milestone_c4 (draws : List (Fin 5)) (orand : ℕ → ℚ) (player : Player)
    (s : MilestoneState) :
    (s.nextMilestone ≤ s.kills → s.perkOpen = false →
      (buildPicks draws []).length = 3 →
      ((milestoneBlock draws orand player s).perkChoices.length = 3 ∧
       (milestoneBlock draws orand player s).perkChoices.Nodup ∧
       (∀ c ∈ (milestoneBlock draws orand player s).perkChoices, c ∈ perkPool) ∧
       (milestoneBlock draws orand player s).perkOpen = true ∧
       (milestoneBlock draws orand player s).running = false ∧
       (milestoneBlock draws orand player s).nextMilestone = s.nextMilestone + 10 ∧
       s.nextMilestone < (milestoneBlock draws orand player s).nextMilestone)) ∧
    (s.perkOpen = true → milestoneBlock draws orand player s = s) := by
  constructor
  · intro hk ho hlen
    unfold milestoneBlock
    rw [if_pos ⟨hk, ho⟩]
    refine ⟨hlen, buildPicks_nodup draws [] (by simp),
      buildPicks_subset draws [] (by simp), rfl, rfl, rfl, ?_⟩
    show s.nextMilestone < s.nextMilestone + 10
    omega
  · intro ho
    unfold milestoneBlock
    rw [if_neg (by simp [ho])]

/-- Witness for C4 with the draw stream `[0, 1, 2]` at kill count 10,
threshold 10, prompt closed. -/
theorem milestone_c4_witness :
    (milestoneBlock [0, 1, 2] halfRand initialPlayer c4state).perkOpen = true :=
  ((milestone_c4 [0, 1, 2] halfRand initialPlayer c4state).1 (by decide) rfl
    (by decide)).2.2.2.1

/-! ## Claim C7 (corrected) -/

theorem spawnObstaclesGo_length (r : ℕ → ℚ) (player : Player)
    (obstacles : List Obstacle) :
    ∀ (n : ℕ) (newObs : List Obstacle) (k : ℕ),
      (spawnObstaclesGo r player obstacles newObs k n).length ≤
        newObs.length + n := by
  intro n
  induction n with
  | zero => intro newObs k; simp [spawnObstaclesGo]
  | succ n ih =>
    intro newObs k
    unfold spawnObstaclesGo
    rcases h : obstacleFind r player (obstacles ++ newObs) k 20 with ⟨pos, k2⟩
    cases pos with
    | none =>
      simp only []
      exact (ih newObs k2).trans (by omega)
    | some q =>
      simp only []
      have h2 := ih (newObs ++
        [(⟨q.1, q.2, player.radius * 2, player.radius * 2 * 2⟩ : Obstacle)]) k2
      simp only [List.length_append, List.length_singleton] at h2
      omega

/-- Claim C7 as amended: the enemy spawner always creates exactly one enemy
when below the cap, and when its 20-attempt rejection sampling fails it
falls back to the unchecked position
`(cx + (rand-0.5)*(w-200), cy + (rand-0.5)*(h-200))`; the milestone
obstacle spawner has no such fallback — an obstacle whose attempts are
exhausted is skipped, so a milestone crossing adds between 0 and
`1 + floor(rand*2)` (hence at most 2) obstacles. -/
theorem spawn_fallback_c7_amended :
    (∀ (r : ℕ → ℚ) (time : ℚ) (obstacles : List Obstacle) (player : Player)
        (enemies : List Enemy), enemies.length < MAX_ENEMIES →
      (spawnEnemy r time obstacles player enemies).1.length = enemies.length + 1) ∧
    (∀ (r : ℕ → ℚ) (obstacles : List Obstacle) (player : Player),
      enemyFind r obstacles player 0 20 = none →
      spawnEnemyPos r obstacles player =
        (canvasWidth / 2 + (r 40 - 1/2) * (canvasWidth - 200),
         canvasHeight / 2 + (r 41 - 1/2) * (canvasHeight - 200))) ∧
    (∀ (r : ℕ → ℚ) (player : Player) (obstacles : List Obstacle),
      (spawnObstacles r player obstacles).length ≤ (1 + (⌊r 0 * 2⌋ : ℤ)).toNat) := by
  refine ⟨?_, ?_, ?_⟩
  · intro r time obstacles player enemies h
    unfold spawnEnemy
    rw [if_neg (by omega)]
    simp
  · intro r obstacles player h
    unfold spawnEnemyPos
    rw [h]
  · intro r player obstacles
    simpa using spawnObstaclesGo_length r player obstacles
      (1 + (⌊r 0 * 2⌋ : ℤ)).toNat [] 1

/-- Counterexample to C7 as stated: with the constant oracle `1/2` every
placement attempt lands on the player, so `spawnObstacles` — asked for
`1 + floor(1) = 2` obstacles by the oracle — adds none at all instead of
falling back to an unchecked position. -/
theorem spawnObstacles_c7_counterexample :
    spawnObstacles halfRand initialPlayer [] = [] ∧
    (1 + (⌊halfRand 0 * 2⌋ : ℤ)).toNat = 2 := by
  constructor
  · norm_num [spawnObstacles, spawnObstaclesGo, obstacleFind, obstacleAttempt,
      obstacleAttemptValid, halfRand, halfWAt, initialPlayer, cxArena,
      canvasWidth, canvasHeight, TOP_HALF_W, BOT_HALF_W]
  · norm_num [halfRand]
    decide

/-- Witness for C7: below the cap one enemy is spawned for the constant
oracle (whose attempts all fail, forcing the fallback), and the obstacle
count added at a milestone is bounded by the oracle's requested count. -/
theorem spawn_fallback_c7_witness :
    (spawnEnemy halfRand 0 [] initialPlayer []).1.length =
      ([] : List Enemy).length + 1 ∧
    spawnEnemyPos halfRand [] initialPlayer =
      (canvasWidth / 2 + (halfRand 40 - 1/2) * (canvasWidth - 200),
       canvasHeight / 2 + (halfRand 41 - 1/2) * (canvasHeight - 200)) ∧
    (spawnObstacles halfRand initialPlayer []).length ≤
      (1 + (⌊halfRand 0 * 2⌋ : ℤ)).toNat :=
  ⟨spawn_fallback_c7_amended.1 halfRand 0 [] initialPlayer [] (by decide),
   spawn_fallback_c7_amended.2.1 halfRand [] initialPlayer (by
     norm_num [enemyFind, enemyAttempt, enemyAttemptValid, halfRand, halfWAt,
       initialPlayer, checkObstacleCollision, cxArena, canvasWidth,
       canvasHeight, TOP_HALF_W, BOT_HALF_W]),
   spawn_fallback_c7_amended.2.2 halfRand initialPlayer []⟩

/-! ## Claim C1 (corrected) -/

theorem clampX_abs (c hw v : ℚ) (h : 0 ≤ hw) :
    |max (c - hw) (min (c + hw) v) - c| ≤ hw := by
  rw [abs_le]
  constructor
  · have h1 := le_max_left (c - hw) (min (c + hw) v)
    linarith
  · have h1 : max (c - hw) (min (c + hw) v) ≤ c + hw :=
      max_le (by linarith) (min_le_left _ _)
    linarith

/-- Claim C1 as amended: after the player-advance stage the player's `y`
always lies in `[radius, canvasHeight - radius]`; and whenever the
tentative `y` (after per-axis obstacle rejection, before the clamp) lies in
`[0, canvasHeight - radius]`, the final `x` satisfies the trapezoid
half-width bound for the final row.  (As stated, the claim fails: the
horizontal clamp uses the half-width of the pre-clamp row, and the per-axis
obstacle checks admit diagonal corner entry — see the counterexample.) -/
theorem playerStep_c1_amended (obstacles : List Obstacle) (p : Player)
    (hrW : p.radius ≤ TOP_HALF_W) (hrH : p.radius ≤ canvasHeight - p.radius) :
    (p.radius ≤ (playerStep obstacles p).y ∧
     (playerStep obstacles p).y ≤ canvasHeight - p.radius) ∧
    (0 ≤ (playerTentative obstacles p).2 →
     (playerTentative obstacles p).2 ≤ canvasHeight - p.radius →
     |(playerStep obstacles p).x - cxArena| ≤
       halfWAt (playerStep obstacles p).y - p.radius) := by
  constructor
  · constructor
    · exact le_max_left _ _
    · exact max_le hrH (min_le_left _ _)
  · intro h0 hH
    have hw0 : 0 ≤ halfWAt (playerTentative obstacles p).2 - p.radius := by
      have h1 : halfWAt 0 ≤ halfWAt (playerTentative obstacles p).2 := halfWAt_mono h0
      have h2 : halfWAt 0 = TOP_HALF_W := by
        norm_num [halfWAt]
      linarith
    have hx : |(playerStep obstacles p).x - cxArena| ≤
        halfWAt (playerTentative obstacles p).2 - p.radius := by
      show |max (cxArena - (halfWAt (playerTentative obstacles p).2 - p.radius))
             (min (cxArena + (halfWAt (playerTentative obstacles p).2 - p.radius))
               (playerTentative obstacles p).1) - cxArena| ≤
           halfWAt (playerTentative obstacles p).2 - p.radius
      exact clampX_abs _ _ _ hw0
    have hy : (playerStep obstacles p).y =
        max p.radius (playerTentative obstacles p).2 := by
      show max p.radius (min (canvasHeight - p.radius) (playerTentative obstacles p).2) = _
      rw [min_eq_right hH]
    have h3 : halfWAt (playerTentative obstacles p).2 ≤
        halfWAt (playerStep obstacles p).y := by
      rw [hy]
      exact halfWAt_mono (le_max_right _ _)
    linarith [hx, h3]

/-- Counterexample to C1 as stated.  First input: at the bottom edge, a
player moving down-right is x-clamped against the wider pre-clamp row and
ends up outside the half-width bound of its final row.  Second input: a
player moving diagonally into an obstacle corner passes both per-axis
checks yet ends the stage overlapping the obstacle. -/
theorem playerStep_c1_counterexample :
    halfWAt (playerStep [] c1playerA).y - c1playerA.radius <
      |(playerStep [] c1playerA).x - cxArena| ∧
    checkObstacleCollision [c1obstacle] (playerStep [c1obstacle] c1playerB).x
      (playerStep [c1obstacle] c1playerB).y c1playerB.radius = true := by
  constructor
  · norm_num [playerStep, playerTentative, checkObstacleCollision,
      circleRectCollides, halfWAt, c1playerA, cxArena, canvasWidth,
      canvasHeight, TOP_HALF_W, BOT_HALF_W, max_def, min_def, abs]
  · norm_num [playerStep, playerTentative, checkObstacleCollision,
      circleRectCollides, halfWAt, c1playerB, c1obstacle, cxArena,
      canvasWidth, canvasHeight, TOP_HALF_W, BOT_HALF_W, max_def, min_def]

/-- Witness for the amended C1 at the initial player with no obstacles. -/
theorem playerStep_c1_witness :
    |(playerStep [] initialPlayer).x - cxArena| ≤
      halfWAt (playerStep [] initialPlayer).y - initialPlayer.radius :=
  (playerStep_c1_amended [] initialPlayer
      (by norm_num [initialPlayer, TOP_HALF_W, canvasWidth])
      (by norm_num [initialPlayer, canvasHeight])).2
    (by norm_num [playerTentative, checkObstacleCollision, initialPlayer])
    (by norm_num [playerTentative, checkObstacleCollision, initialPlayer,
      canvasHeight])

/-! ## Claim C8 -/

theorem projObstacles_ricochet_some (obstacles : List Obstacle)
    (p : Projectile) (hric : p.canRicochet = true) (nx ny vx vy : ℚ) :
    ∃ q, projObstacles obstacles p nx ny vx vy = some q := by
  cases hf : obstacles.find? (fun ob => circleRectCollides nx ny p.radius ob) with
  | none =>
    refine ⟨(nx, ny, vx, vy), ?_⟩
    simp [projObstacles, hf]
  | some ob =>
    simp only [projObstacles, hf, hric, if_true]
    cases circleRectCollisionAxis nx ny ob with
    | x => exact ⟨_, rfl⟩
    | y => exact ⟨_, rfl⟩

/-- Claim C8: a ricochet-enabled projectile whose lifetime has not expired
is never removed by the per-projectile update; and when its advanced
position would leave the arena through the slanted side bounds the
boundary phase inverts `vx` and re-advances `x` with the inverted
velocity, while leaving through the top/bottom bounds inverts `vy` and
re-advances `y`. -/
theorem projectile_ricochet_c8 (obstacles : List Obstacle) (ts : ℚ)
    (p : Projectile)
    (hfresh : ts - p.createdAt < projectileLifetime)
    (hric : p.canRicochet = true) :
    (∃ q, projectileStep obstacles ts p = some q) ∧
    (p.x + p.vx < cxArena - (halfWAt (p.y + p.vy) - p.radius) ∨
       cxArena + (halfWAt (p.y + p.vy) - p.radius) < p.x + p.vx →
     ∃ ny vy, projBoundary p = some (p.x + -p.vx, ny, -p.vx, vy)) ∧
    (p.y + p.vy < p.radius ∨ canvasHeight - p.radius < p.y + p.vy →
     ∃ nx vx, projBoundary p = some (nx, p.y + -p.vy, vx, -p.vy)) := by
  have hBsome : ∃ nx ny vx vy, projBoundary p = some (nx, ny, vx, vy) ∧
      (p.x + p.vx < cxArena - (halfWAt (p.y + p.vy) - p.radius) ∨
         cxArena + (halfWAt (p.y + p.vy) - p.radius) < p.x + p.vx →
       nx = p.x + -p.vx ∧ vx = -p.vx) ∧
      (p.y + p.vy < p.radius ∨ canvasHeight - p.radius < p.y + p.vy →
       ny = p.y + -p.vy ∧ vy = -p.vy) := by
    by_cases hx : p.x + p.vx < cxArena - (halfWAt (p.y + p.vy) - p.radius) ∨
        cxArena + (halfWAt (p.y + p.vy) - p.radius) < p.x + p.vx <;>
      by_cases hy : p.y + p.vy < p.radius ∨ canvasHeight - p.radius < p.y + p.vy
    · exact ⟨p.x + -p.vx, p.y + -p.vy, -p.vx, -p.vy,
        by simp [projBoundary, hric, hx, hy], fun _ => ⟨rfl, rfl⟩,
        fun _ => ⟨rfl, rfl⟩⟩
    · exact ⟨p.x + -p.vx, p.y + p.vy, -p.vx, p.vy,
        by simp [projBoundary, hric, hx, hy], fun _ => ⟨rfl, rfl⟩,
        fun h => absurd h hy⟩
    · exact ⟨p.x + p.vx, p.y + -p.vy, p.vx, -p.vy,
        by simp [projBoundary, hric, hx, hy], fun h => absurd h hx,
        fun _ => ⟨rfl, rfl⟩⟩
    · exact ⟨p.x + p.vx, p.y + p.vy, p.vx, p.vy,
        by simp [projBoundary, hric, hx, hy], fun h => absurd h hx,
        fun h => absurd h hy⟩
  obtain ⟨nx, ny, vx, vy, hB, hBx, hBy⟩ := hBsome
  refine ⟨?_, ?_, ?_⟩
  · obtain ⟨q, hq⟩ := projObstacles_ricochet_some obstacles p hric nx ny vx vy
    obtain ⟨q1, q2, q3, q4⟩ := q
    refine ⟨{ p with x := q1, y := q2, vx := q3, vy := q4 }, ?_⟩
    simp [projectileStep, hB, hq, not_le.mpr hfresh]
  · intro hx
    obtain ⟨h1, h2⟩ := hBx hx
    exact ⟨ny, vy, by rw [hB, h1, h2]⟩
  · intro hy
    obtain ⟨h1, h2⟩ := hBy hy
    exact ⟨nx, vx, by rw [hB, h1, h2]⟩

/-- Witness for C8: a ricochet projectile crossing the left slanted bound
has its `vx` inverted and its `x` re-advanced. -/
theorem projectile_ricochet_c8_witness :
    ∃ ny vy, projBoundary c8proj = some (c8proj.x + -c8proj.vx, ny, -c8proj.vx, vy) :=
  (projectile_ricochet_c8 [] 1000 c8proj
      (by norm_num [c8proj, projectileLifetime]) rfl).2.1
    (by norm_num [c8proj, cxArena, halfWAt, canvasWidth, canvasHeight,
      TOP_HALF_W, BOT_HALF_W])

/-! ## Claim C2 (code bug) -/

/-- Claim C2: evaluation at a failing input exhibiting the stale-index
removal bug of the combat pass
(source line 1573): with two pierce-0 projectiles each overlapping its own
enemy, both hits are counted (`kills = 2`) and no pierce charge was ever
available (`projs` unchanged, every `piercesLeft = 0`), yet the final
projectile collection still contains snapshot index 1 — the second hit
removed the element at position 1 of the already-shortened list, which no
longer exists, so the projectile that was hit on its first enemy contact
survives the tick instead of being removed. -/
theorem combatPass_c2_stale_index_eval :
    (combatPass 1000 c2player (fun _ => false) 0 c2enemies c2projectiles []).kills = 2 ∧
    (combatPass 1000 c2player (fun _ => false) 0 c2enemies c2projectiles []).newProjectiles = [1] ∧
    (combatPass 1000 c2player (fun _ => false) 0 c2enemies c2projectiles []).projs = c2projectiles ∧
    (combatPass 1000 c2player (fun _ => false) 0 c2enemies c2projectiles []).projectilesChanged = true := by
  refine ⟨?_, ?_, ?_, ?_⟩ <;>
    norm_num [combatPass, combatEnemy, enemyHit, findHitIdx, List.enum,
      List.enumFrom, c2player, c2enemies, c2projectiles, List.getD_cons_zero,
      List.getD_cons_succ, List.eraseIdx]

/-! ## Claim C5 -/

/-- Claim C5: when the player's velocity is zero on both axes and at least
500 ms have elapsed since the last shot, exactly one volley of exactly
`arrowCount` projectiles is appended and `lastFireTime` becomes the tick's
timestamp; the volley's angular offsets are symmetric about the aim angle,
fan uniformly with step `spread/(count-1)`, and span a total spread of
`min(0.3, 0.08*(count-1))`; each shot's velocity is
`(cos angle, sin angle) * projectileSpeed` (so its speed is
`projectileSpeed`), its pierce count is 1 iff `pierce` is enabled, and it
inherits the `ricochet` flag. -/
theorem fire_volley_c5 (baseAngle : ℝ) (t : ℚ) (p : Player) (st : Stats)
    (projs : List Shot)
    (hvx : p.vx = 0) (hvy : p.vy = 0) (ht : fireRate ≤ t - p.lastFireTime) :
    fireStage baseAngle t p st projs =
      (projs ++ fireVolley baseAngle t p st, t) ∧
    (fireVolley baseAngle t p st).length = st.arrowCount ∧
    (∀ i, i < st.arrowCount →
      shotOffset st.arrowCount i + shotOffset st.arrowCount (st.arrowCount - 1 - i) = 0) ∧
    (∀ i, i + 1 < st.arrowCount →
      shotOffset st.arrowCount (i + 1) - shotOffset st.arrowCount i =
        fireSpread st.arrowCount / ((st.arrowCount : ℚ) - 1)) ∧
    (2 ≤ st.arrowCount →
      shotOffset st.arrowCount (st.arrowCount - 1) - shotOffset st.arrowCount 0 =
        fireSpread st.arrowCount ∧
      fireSpread st.arrowCount = min (3/10) ((2/25) * ((st.arrowCount : ℚ) - 1))) ∧
    (∀ i (hi : i < (fireVolley baseAngle t p st).length),
      ((fireVolley baseAngle t p st).get ⟨i, hi⟩).vx =
        Real.cos (baseAngle + (shotOffset st.arrowCount i : ℝ)) *
          (st.projectileSpeed : ℝ) ∧
      ((fireVolley baseAngle t p st).get ⟨i, hi⟩).vy =
        Real.sin (baseAngle + (shotOffset st.arrowCount i : ℝ)) *
          (st.projectileSpeed : ℝ) ∧
      ((fireVolley baseAngle t p st).get ⟨i, hi⟩).vx ^ 2 +
        ((fireVolley baseAngle t p st).get ⟨i, hi⟩).vy ^ 2 =
        ((st.projectileSpeed : ℝ)) ^ 2 ∧
      (((fireVolley baseAngle t p st).get ⟨i, hi⟩).piercesLeft = 1 ↔
        st.pierce = true) ∧
      ((fireVolley baseAngle t p st).get ⟨i, hi⟩).canRicochet = st.ricochet ∧
      ((fireVolley baseAngle t p st).get ⟨i, hi⟩).createdAt = (t : ℝ)) := by
  have hcount : ∀ i : ℕ, i < st.arrowCount → st.arrowCount ≠ 1 →
      ((st.arrowCount : ℚ) - 1) ≠ 0 := by
    intro i hi h1 heq
    have h2 : 2 ≤ st.arrowCount := by omega
    have h3 : (2 : ℚ) ≤ (st.arrowCount : ℚ) := by exact_mod_cast h2
    linarith
  refine ⟨?_, ?_, ?_, ?_, ?_, ?_⟩
  · unfold fireStage
    rw [if_pos ⟨hvx, hvy, ht⟩]
  · simp [fireVolley]
  · intro i hi
    by_cases h1 : st.arrowCount = 1
    · have hi0 : i = 0 := by omega
      simp [shotOffset, h1, hi0]
    · have hc := hcount i hi h1
      have h3 : i ≤ st.arrowCount - 1 := by omega
      have hcast : ((st.arrowCount - 1 - i : ℕ) : ℚ) =
          (st.arrowCount : ℚ) - 1 - (i : ℚ) := by
        rw [Nat.cast_sub h3, Nat.cast_sub (by omega : 1 ≤ st.arrowCount)]
        norm_num
      unfold shotOffset
      rw [if_neg h1, if_neg h1, hcast]
      field_simp
      ring
  · intro i hi
    have h1 : st.arrowCount ≠ 1 := by omega
    have hc := hcount (i + 1) hi h1
    unfold shotOffset
    rw [if_neg h1, if_neg h1]
    push_cast
    field_simp
    ring
  · intro h2
    have h1 : st.arrowCount ≠ 1 := by omega
    have hc : ((st.arrowCount : ℚ) - 1) ≠ 0 := by
      have h3 : (2 : ℚ) ≤ (st.arrowCount : ℚ) := by exact_mod_cast h2
      intro heq
      linarith
    have hcast : ((st.arrowCount - 1 : ℕ) : ℚ) = (st.arrowCount : ℚ) - 1 := by
      rw [Nat.cast_sub (by omega : 1 ≤ st.arrowCount)]
      norm_num
    constructor
    · unfold shotOffset
      rw [if_neg h1, if_neg h1, hcast]
      field_simp
    · rfl
  · intro i hi
    have hi2 : i < st.arrowCount := by simpa [fireVolley] using hi
    have hget : (fireVolley baseAngle t p st).get ⟨i, hi⟩ =
        { x := (p.x : ℝ)
          y := (p.y : ℝ)
          vx := Real.cos (baseAngle + (shotOffset st.arrowCount i : ℝ)) *
            (st.projectileSpeed : ℝ)
          vy := Real.sin (baseAngle + (shotOffset st.arrowCount i : ℝ)) *
            (st.projectileSpeed : ℝ)
          radius := 4
          createdAt := (t : ℝ)
          piercesLeft := if st.pierce then 1 else 0
          canRicochet := st.ricochet } := by
      simp [fireVolley]
    rw [hget]
    refine ⟨rfl, rfl, ?_, ?_, rfl, rfl⟩
    · show (Real.cos (baseAngle + (shotOffset st.arrowCount i : ℝ)) *
          (st.projectileSpeed : ℝ)) ^ 2 +
        (Real.sin (baseAngle + (shotOffset st.arrowCount i : ℝ)) *
          (st.projectileSpeed : ℝ)) ^ 2 = ((st.projectileSpeed : ℝ)) ^ 2
      calc (Real.cos (baseAngle + (shotOffset st.arrowCount i : ℝ)) *
            (st.projectileSpeed : ℝ)) ^ 2 +
          (Real.sin (baseAngle + (shotOffset st.arrowCount i : ℝ)) *
            (st.projectileSpeed : ℝ)) ^ 2 =
          (Real.sin (baseAngle + (shotOffset st.arrowCount i : ℝ)) ^ 2 +
            Real.cos (baseAngle + (shotOffset st.arrowCount i : ℝ)) ^ 2) *
            (st.projectileSpeed : ℝ) ^ 2 := by ring
        _ = ((st.projectileSpeed : ℝ)) ^ 2 := by
          rw [Real.sin_sq_add_cos_sq]
          ring
    · by_cases hp : st.pierce = true
      · simp [hp]
      · simp [hp]

/-- Witness for C5: a stationary player with 3 arrows at timestamp 500
fires a volley of exactly 3. -/
theorem fire_volley_c5_witness :
    (fireVolley 0 500 initialPlayer c5stats).length = c5stats.arrowCount :=
  (fire_volley_c5 0 500 initialPlayer c5stats [] rfl rfl
    (by norm_num [fireRate, initialPlayer])).2.1

end Archero
